import Mathlib

/-!
Verification of the linting provider of vscode-sqlfluff
(src/features/providers/lint.ts). The source file contains two variants of
the `LintingProvider` class: variant 1 (the sqlfluff provider, delegating
process execution to a `SQLFluff.run` helper) and variant 2 (an older
style provider spawning the child process inline). Definitions below are
shallow embeddings of the corresponding TypeScript functions; line numbers
refer to the concatenated source file.
-/

namespace VscodeSqlfluff

/-- RunTrigger enumeration, lint.ts lines 9-13 (variant 1) and 152-156
(variant 2): the run-trigger mode is one of onSave, onType, off. -/
inductive RunTrigger
  | onSave
  | onType
  | off
deriving DecidableEq, Repr, BEq, Fintype

/-- Association-list update keyed by strings: models assignment into the
provider's `delayers` object / `diagnosticCollection.set`. -/
def alSet {α : Type} (m : List (String × α)) (k : String) (v : α) :
    List (String × α) :=
  (k, v) :: m.filter (fun p => p.1 != k)

/-- Association-list deletion: models `delete this.delayers[key]` and
`diagnosticCollection.delete(uri)`. -/
def alErase {α : Type} (m : List (String × α)) (k : String) :
    List (String × α) :=
  m.filter (fun p => p.1 != k)

/-- Association-list lookup: models `this.delayers[key]` /
`diagnosticCollection.get(uri)`. -/
def alGet {α : Type} (m : List (String × α)) (k : String) : Option α :=
  (m.find? (fun p => p.1 == k)).map (·.2)

/-- Result of `SQLFluff.run` as consumed by variant 1 doLint (lines
127-142): a success flag and the decoded output lines. The source reads
`result.lines?.length > 0`, so an absent line list behaves exactly like an
empty one and is modelled as `[]`. -/
structure RunResult where
  succeeded : Bool
  lines : List String
deriving DecidableEq, Repr

/-- Options record passed by variant 1 doLint to `SQLFluff.run` (lint.ts
lines 118-125): an optional target file path and optional in-memory file
contents. -/
structure CommandOptions where
  targetFileFullPath : Option String
  fileContents : Option String
deriving DecidableEq, Repr

/-- Variant 1 doLint option construction, lint.ts lines 120-125:
if the trigger mode is onSave or the call is not flagged as using the
current document content, only the saved file path is passed; otherwise
both the file path and the live document text are passed. -/
def analyzeOptionsV1 (mode : RunTrigger) (currentDocument : Bool)
    (filePath text : String) : CommandOptions :=
  if mode == RunTrigger.onSave || !currentDocument then
    { targetFileFullPath := some filePath, fileContents := none }
  else
    { targetFileFullPath := some filePath, fileContents := some text }

/-- Variant 1 triggerLint guard, lint.ts lines 86-110: returns true exactly
when the function proceeds past the early return to resolve the delayer and
call `delayer.trigger` (which schedules the analysis); returns false when
the early `return` is taken, in which case the Process Runner is never
invoked for this call. -/
def triggerSchedulesV1 (languageIds : List String) (docLang : String)
    (executableNotFound : Bool) (mode : RunTrigger) (forceLint : Bool) :
    Bool :=
  !(!(languageIds.contains docLang) || executableNotFound
    || (mode == RunTrigger.off && !forceLint))

/-- Guard of variant 1 triggerLint abstracted over the language-membership
test result, for case analysis. -/
def guardExprV1 (langOk flag : Bool) (mode : RunTrigger) (forceLint : Bool) :
    Bool :=
  !(!langOk || flag || (mode == RunTrigger.off && !forceLint))

/-- Variant 2 triggerLint guard, lint.ts line 257: same shape but with no
`forceLint` parameter (off mode is always a no-op). -/
def triggerSchedulesV2 (languageIds : List String) (docLang : String)
    (executableNotFound : Bool) (mode : RunTrigger) : Bool :=
  !(!(languageIds.contains docLang) || executableNotFound
    || (mode == RunTrigger.off))

/-- Extensions accepted by `fileRegex`, lint.ts line 21:
the regular expression is written there over exactly these alternatives. -/
def lintExtensions : List String := ["sql", "sql-bigquery", "jinja-sql"]

/-- JavaScript-regex match of lint.ts line 21
(a caret, then dot-star, then a literal dot, then the alternation of the
three extensions, then a dollar anchor) against a whole path: the path
decomposes as an arbitrary newline-free prefix, a literal dot, and one of
the three extensions. In a JavaScript regex without the s flag the dot
metacharacter does not match a newline, hence the prefix restriction.
Characters of the path are handled as a list. -/
def fileRegexMatch (path : String) : Bool :=
  lintExtensions.any (fun e =>
    (('.' :: e.data).isSuffixOf path.data)
      && !((path.data.take (path.data.length - (e.data.length + 1))).contains
            '\n'))

/-- Claim-language predicate: the path ends in .sql, .sql-bigquery or
.jinja-sql. -/
def endsWithLintExt (path : String) : Bool :=
  lintExtensions.any (fun e => ('.' :: e.data).isSuffixOf path.data)

/-- Variant 1 lintProject, lint.ts lines 74-84: for each file returned by
the workspace file search (with pattern of line 20), the file is opened and
lint-triggered exactly when `fileRegex.exec(file.path)` matches; all other
files are skipped. The function returns the list of paths for which a lint
is triggered. -/
def lintProjectV1 (files : List String) : List String :=
  files.filter fileRegexMatch

/-- Provider state relevant to document lifecycle in variant 1: the
per-document delayer table (lint.ts line 27; the stored value is the delay
the delayer was created with, lines 98-105) and the diagnostic collection
keyed by document uri. -/
structure DocState (α : Type) where
  delayers : List (String × Nat)
  diagnostics : List (String × List α)
deriving DecidableEq, Repr

/-- Document-close handler, lint.ts lines 42-45 (and identically lines
212-215 in variant 2): deletes the document uri from the diagnostic
collection and deletes the key from the delayer table. -/
def closeDocV1 {α : Type} (st : DocState α) (uri : String) : DocState α :=
  { delayers := alErase st.delayers uri,
    diagnostics := alErase st.diagnostics uri }

/-- Tail of variant 1 doLint, lint.ts lines 134-142: on a non-succeeded
result a failure line is logged to the output channel; then, exactly when
the result carries at least one output line, the lines are parsed by the
supplied linter and the document diagnostic entry is replaced. Returns the
new diagnostic collection and whether the failure log line was written. -/
def doLintTailV1 {α : Type} (process : List String → List α)
    (diagnostics : List (String × List α)) (uri : String)
    (result : RunResult) : List (String × List α) × Bool :=
  let logged := !result.succeeded
  if result.lines.isEmpty then (diagnostics, logged)
  else (alSet diagnostics uri (process result.lines), logged)

/-- Completion of a variant 1 doLint task against the provider state: the
delayer table is untouched and the diagnostic collection is updated by the
doLint tail. The source contains no check that the document is still open
before publishing. -/
def doLintCompleteV1 {α : Type} (process : List String → List α)
    (st : DocState α) (uri : String) (result : RunResult) : DocState α :=
  { st with
    diagnostics := (doLintTailV1 process st.diagnostics uri result).1 }

/-- Variant 2 onEndEvent, lint.ts lines 319-329: once the output stream
ends, the decoded lines are parsed when nonempty, and the diagnostic entry
for the document is unconditionally replaced with the parsed list (the
empty list when there was no output). -/
def onEndEventV2 {α : Type} (process : List String → List α)
    (diagnostics : List (String × List α)) (uri : String)
    (lines : List String) : List (String × List α) :=
  alSet diagnostics uri (if lines.isEmpty then [] else process lines)

/-- Kind of a child-process spawn error: the code field of the error
object equals ENOENT exactly for an executable-not-found failure. -/
inductive SpawnErrorKind
  | enoent
  | otherError
deriving DecidableEq, Repr

/-- Spawn error as observed by the variant 2 error handler: a kind and the
message field of the underlying error (the empty string models a falsy
message, which JavaScript truthiness sends to the fallback text). -/
structure SpawnError where
  kind : SpawnErrorKind
  message : String
deriving DecidableEq, Repr

/-- Message of lint.ts line 305 (quote marks of the original text are
omitted). -/
def notFoundMessage (fileName : String) : String :=
  "Cannot lint " ++ fileName ++ ". The executable was not found. " ++
    "Use the Executable Path setting to configure the location of the " ++
    "executable"

/-- Fallback message of lint.ts line 307. -/
def unknownReasonMessage (executable : String) : String :=
  "Failed to run executable using path: " ++ executable ++
    ". Reason is unknown."

/-- State touched by the variant 2 spawn-error handler: the
executable-missing flag and the list of user-visible messages shown so
far. -/
structure ErrHandlerState where
  executableNotFound : Bool
  shownMessages : List String
deriving DecidableEq, Repr

/-- Variant 2 childProcess error handler, lint.ts lines 297-313: when the
executable-missing flag is already set the handler resolves silently with
no state change; otherwise it builds a message depending on the error kind
(not-found text for ENOENT, the error message or a fallback text
otherwise), sets the executable-missing flag unconditionally, and shows
the message. -/
def onSpawnErrorV2 (st : ErrHandlerState) (fileName executable : String)
    (e : SpawnError) : ErrHandlerState :=
  if st.executableNotFound then st
  else
    let message :=
      if e.kind = SpawnErrorKind.enoent then notFoundMessage fileName
      else if e.message != "" then e.message
      else unknownReasonMessage executable
    { executableNotFound := true,
      shownMessages := st.shownMessages ++ [message] }

/-- Operations of the variant 2 provider that touch or read the
executable-missing flag. loadConfig carries the executable path read from
the new configuration (an unchanged configuration is modelled by carrying
the same path). -/
inductive V2Op
  | loadConfig (newExec : String)
  | spawnError (e : SpawnError)
  | triggerDoc (uri : String)
  | closeDoc (uri : String)
deriving DecidableEq, Repr

/-- Flag-relevant provider state of variant 2: the executable-missing
flag and the configured executable path. -/
structure V2FlagState where
  executableNotFound : Bool
  executable : String
deriving DecidableEq, Repr

/-- Effect of each variant 2 operation on the flag state.
loadConfiguration (lint.ts lines 226-237) remembers the old executable,
installs the new configuration, and, when the flag is set, recomputes it
as the equality of the old and new executable paths — so the flag is
cleared exactly when the path changed. The spawn-error handler (lines
297-313, see onSpawnErrorV2) sets the flag. triggerLint (line 257) only
reads the flag, and the close handler (lines 212-215) does not touch
it. -/
def stepV2Flag (st : V2FlagState) (op : V2Op) : V2FlagState :=
  match op with
  | V2Op.loadConfig newExec =>
    let oldExec := st.executable
    let st2 := { st with executable := newExec }
    if st2.executableNotFound then
      { st2 with executableNotFound := oldExec == newExec }
    else st2
  | V2Op.spawnError _ =>
    if st.executableNotFound then st
    else { st with executableNotFound := true }
  | V2Op.triggerDoc _ => st
  | V2Op.closeDoc _ => st

/-- Variant 1 doLint, lint.ts lines 112-143, seen as a promise: an error
value models a rejected promise (an exception thrown inside the async
function), an ok value a resolved one carrying the options passed to the
runner, the new diagnostic collection and the logged flag. Line 114
dereferences workspaceFolders at index 0 without a guard, so an absent or
empty folder list throws a TypeError and the promise rejects. Modelled
from the spec: SQLFluff.run (src/features/helper/sqlfluff, not under
src/) resolves with a RunResult and never rejects (Process Runner
contract, spec 4.3); its result is therefore an argument here. -/
def doLintV1 {α : Type} (process : List String → List α)
    (workspaceFolders : List String) (mode : RunTrigger)
    (currentDocument : Bool) (filePath text : String)
    (result : RunResult) (diagnostics : List (String × List α))
    (uri : String) :
    Except String (CommandOptions × List (String × List α) × Bool) :=
  match workspaceFolders with
  | [] => Except.error "TypeError: cannot read properties of undefined"
  | _ :: _ =>
    Except.ok (analyzeOptionsV1 mode currentDocument filePath text,
      doLintTailV1 process diagnostics uri result)

/-- Scheduling state of one throttled delayer. Modelled from the spec:
the ThrottledDelayer class (src/features/helper/async, not under src/)
follows the spec 4.2 contract — idle (no pending execution), waiting (an
execution scheduled but not started; new triggers replace its task), and
running (a task started whose promise is unresolved; the flag records
whether a further trigger queued a follow-up task to run after
completion). -/
inductive DState
  | idle
  | waiting
  | running (queuedNext : Bool)
deriving DecidableEq, Repr

/-- State of the analysis pipeline for one document: the delayer state,
the identifiers of analyses whose subprocess was spawned and whose output
stream has not yet ended, the next fresh identifier, and the identifier
of the analysis whose diagnostics were published last. -/
structure PipelineState where
  dstate : DState
  outstanding : List Nat
  nextId : Nat
  lastPublished : Option Nat
deriving DecidableEq, Repr

/-- Events driving one document's pipeline: a lint trigger, the delayer
firing its scheduled task, and the end of the output stream of analysis
i, which publishes the diagnostics of that analysis. -/
inductive PipelineEv
  | trigger
  | fire
  | streamEnd (i : Nat)
deriving DecidableEq, Repr

/-- One step of the pipeline. The earlyResolve flag selects the variant 2
behaviour of doLint (lint.ts lines 331-342): after a successful spawn the
promise is resolved immediately (the resolve call of line 339), before
the output stream ends, so the delayer regards the task as completed
while the analysis is still outstanding. With earlyResolve false (the
variant 1 behaviour, where doLint awaits the runner) the promise resolves
only at stream end. Delayer transitions follow the spec 4.2 contract. -/
def pipelineStep (earlyResolve : Bool) (st : PipelineState)
    (e : PipelineEv) : PipelineState :=
  match e with
  | PipelineEv.trigger =>
    match st.dstate with
    | DState.idle => { st with dstate := DState.waiting }
    | DState.waiting => st
    | DState.running _ => { st with dstate := DState.running true }
  | PipelineEv.fire =>
    match st.dstate with
    | DState.waiting =>
      let st2 := { st with
        outstanding := st.outstanding ++ [st.nextId],
        nextId := st.nextId + 1 }
      if earlyResolve then { st2 with dstate := DState.idle }
      else { st2 with dstate := DState.running false }
    | _ => st
  | PipelineEv.streamEnd i =>
    if st.outstanding.contains i then
      let st2 := { st with
        outstanding := st.outstanding.filter (fun j => j != i),
        lastPublished := some i }
      if earlyResolve then st2
      else
        match st2.dstate with
        | DState.running true => { st2 with dstate := DState.waiting }
        | DState.running false => { st2 with dstate := DState.idle }
        | _ => st2
    else st

/-- Pipeline state of a freshly tracked document. -/
def pipelineInit : PipelineState :=
  { dstate := DState.idle, outstanding := [], nextId := 0,
    lastPublished := none }

/-- Run of the pipeline from the initial state over a list of events. -/
def pipelineRun (earlyResolve : Bool) (evs : List PipelineEv) :
    PipelineState :=
  evs.foldl (pipelineStep earlyResolve) pipelineInit

/-- Pipeline invariant: at most one analysis is outstanding, and an
analysis can be outstanding only while the delayer holds a running
task. -/
def pipelineInv (st : PipelineState) : Prop :=
  st.outstanding.length ≤ 1
  ∧ (st.outstanding = [] ∨ ∃ b, st.dstate = DState.running b)

/-- Kind of a workspace listener registered by loadConfiguration. -/
inductive LKind
  | changeListener
  | saveListener
deriving DecidableEq, Repr

/-- Listener bookkeeping of the variant 1 provider: the currently
registered (undisposed) listeners with fresh identifiers, the identifier
held by the documentListener field — the only handle loadConfiguration
can dispose —, the delayer table, and the trigger mode in effect. -/
structure ListenerState where
  active : List (Nat × LKind)
  documentListener : Option Nat
  nextId : Nat
  delayers : List (String × Nat)
  mode : RunTrigger
deriving DecidableEq, Repr

/-- Registration of a host event listener: a fresh disposable joins the
active set and its identifier is stored into the documentListener field,
overwriting the previous content of the field without disposing it —
exactly what the assignments of lint.ts lines 64 and 68 do. -/
def registerListener (st : ListenerState) (k : LKind) : ListenerState :=
  { st with
    active := st.active ++ [(st.nextId, k)],
    documentListener := some st.nextId,
    nextId := st.nextId + 1 }

/-- Variant 1 loadConfiguration, lint.ts lines 56-72: resets the delayer
table; disposes the listener currently held in the documentListener field
when present; when the new trigger mode is onType, registers the change
listener into documentListener; then always registers the save listener
into documentListener. (Variant 2, lines 226-254, has the same overwrite
through an if/else followed by a duplicated save registration.) -/
def loadConfigurationListenersV1 (st : ListenerState)
    (mode : RunTrigger) : ListenerState :=
  let st1 := { st with delayers := [], mode := mode }
  let st2 :=
    match st1.documentListener with
    | none => st1
    | some i =>
      { st1 with active := st1.active.filter (fun p => p.1 != i) }
  let st3 :=
    if mode = RunTrigger.onType then
      registerListener st2 LKind.changeListener
    else st2
  registerListener st3 LKind.saveListener

/-- Listener state at activation, before the first loadConfiguration call
(lint.ts lines 35-40). -/
def listenerInit : ListenerState :=
  { active := [], documentListener := none, nextId := 0, delayers := [],
    mode := RunTrigger.off }

end VscodeSqlfluff

namespace VscodeSqlfluff

/-- Lookup after erasure of the same key yields nothing. -/
theorem alGet_alErase_self {α : Type} (m : List (String × α)) (k : String) :
    alGet (alErase m k) k = none := by
  rw [alGet, Option.map_eq_none', List.find?_eq_none]
  intro x hx
  rw [alErase, List.mem_filter] at hx
  simpa using hx.2

/-- Lookup after update of the same key yields the new value. -/
theorem alGet_alSet_self {α : Type} (m : List (String × α)) (k : String)
    (v : α) : alGet (alSet m k v) k = some v := by
  simp [alSet, alGet, List.find?_cons]

/-- C7: In variant 1 doLint, if the trigger mode is onSave or the call is
not flagged as using the current in-memory content, only the saved file
path is passed to the Process Runner; otherwise both the file path and the
live in-memory text are passed. -/
theorem c7_analyze_options (mode : RunTrigger) (currentDocument : Bool)
    (filePath text : String) :
    (mode = RunTrigger.onSave ∨ currentDocument = false →
      analyzeOptionsV1 mode currentDocument filePath text =
        { targetFileFullPath := some filePath, fileContents := none })
    ∧ (mode ≠ RunTrigger.onSave → currentDocument = true →
      analyzeOptionsV1 mode currentDocument filePath text =
        { targetFileFullPath := some filePath, fileContents := some text }) := by
  constructor
  · rintro (h | h)
    · subst h; cases currentDocument <;> rfl
    · subst h; cases mode <;> rfl
  · intro h h2
    subst h2
    cases mode
    case onSave => exact absurd rfl h
    case onType => rfl
    case off => rfl

/-- C7 witness: concrete evaluation of both branches. -/
theorem c7_analyze_options_witness :
    analyzeOptionsV1 RunTrigger.onSave true "a.sql" "select 1" =
      { targetFileFullPath := some "a.sql", fileContents := none } ∧
    analyzeOptionsV1 RunTrigger.onType true "a.sql" "select 1" =
      { targetFileFullPath := some "a.sql", fileContents := some "select 1" } :=
  ⟨(c7_analyze_options RunTrigger.onSave true "a.sql" "select 1").1
      (Or.inl rfl),
    (c7_analyze_options RunTrigger.onType true "a.sql" "select 1").2
      (by decide) rfl⟩

/-- C4: variant 1 triggerLint performs no scheduling when the document
language is not handled, or the executable-missing flag is set, or the
mode is off and the call is not forced; with mode off and forced calls it
still schedules (given a handled language and an unset flag). -/
theorem c4_trigger_guard (languageIds : List String) (docLang : String)
    (flag : Bool) (mode : RunTrigger) (forceLint : Bool) :
    (languageIds.contains docLang = false →
      triggerSchedulesV1 languageIds docLang flag mode forceLint = false)
    ∧ (flag = true →
      triggerSchedulesV1 languageIds docLang flag mode forceLint = false)
    ∧ (mode = RunTrigger.off → forceLint = false →
      triggerSchedulesV1 languageIds docLang flag mode forceLint = false)
    ∧ (mode = RunTrigger.off → languageIds.contains docLang = true →
        flag = false → forceLint = true →
      triggerSchedulesV1 languageIds docLang flag mode forceLint = true) := by
  have hexpr : triggerSchedulesV1 languageIds docLang flag mode forceLint =
      guardExprV1 (languageIds.contains docLang) flag mode forceLint := rfl
  have hall : ∀ (c f : Bool) (m : RunTrigger) (fl : Bool),
      (c = false → guardExprV1 c f m fl = false)
      ∧ (f = true → guardExprV1 c f m fl = false)
      ∧ (m = RunTrigger.off → fl = false → guardExprV1 c f m fl = false)
      ∧ (m = RunTrigger.off → c = true → f = false → fl = true →
          guardExprV1 c f m fl = true) := by decide
  have h := hall (languageIds.contains docLang) flag mode forceLint
  rw [hexpr]
  exact h

/-- C4 witness: with mode off, a handled language and an unset flag, a
non-forced call does not schedule and a forced call does. -/
theorem c4_trigger_guard_witness :
    triggerSchedulesV1 ["sql"] "sql" false RunTrigger.off false = false ∧
    triggerSchedulesV1 ["sql"] "sql" false RunTrigger.off true = true :=
  ⟨(c4_trigger_guard ["sql"] "sql" false RunTrigger.off false).2.2.1
      rfl rfl,
    (c4_trigger_guard ["sql"] "sql" false RunTrigger.off true).2.2.2
      rfl (by decide) rfl rfl⟩

/-- C10: lintProject triggers linting only for files whose path matches
the extension regex, so every triggered file comes from the search result
and ends in .sql, .sql-bigquery or .jinja-sql; every file not ending in
one of those extensions is skipped even when the search returns it. -/
theorem c10_lint_project (files : List String) (f : String) :
    (f ∈ lintProjectV1 files → f ∈ files ∧ endsWithLintExt f = true)
    ∧ (endsWithLintExt f = false → f ∉ lintProjectV1 files) := by
  constructor
  · intro h
    rw [lintProjectV1, List.mem_filter] at h
    refine ⟨h.1, ?_⟩
    have hm := h.2
    rw [fileRegexMatch, List.any_eq_true] at hm
    obtain ⟨e, he, hcond⟩ := hm
    rw [endsWithLintExt, List.any_eq_true]
    exact ⟨e, he, (Bool.and_eq_true _ _ |>.mp hcond).1⟩
  · intro h hmem
    rw [lintProjectV1, List.mem_filter] at hmem
    have hm := hmem.2
    rw [fileRegexMatch, List.any_eq_true] at hm
    obtain ⟨e, he, hcond⟩ := hm
    have hend := (Bool.and_eq_true _ _ |>.mp hcond).1
    rw [endsWithLintExt] at h
    have hany : (lintExtensions.any fun e =>
        ('.' :: e.data).isSuffixOf f.data) = true :=
      List.any_eq_true.mpr ⟨e, he, hend⟩
    rw [h] at hany
    exact Bool.false_ne_true hany

/-- C10 witness: in a search result holding a .sql file and a .txt file,
the .sql file is triggered and ends in an accepted extension, while the
.txt file is skipped. -/
theorem c10_lint_project_witness :
    ("a.sql" ∈ ["a.sql", "b.txt"] ∧ endsWithLintExt "a.sql" = true) ∧
    "b.txt" ∉ lintProjectV1 ["a.sql", "b.txt"] :=
  ⟨(c10_lint_project ["a.sql", "b.txt"] "a.sql").1 (by decide),
    (c10_lint_project ["a.sql", "b.txt"] "b.txt").2 (by decide)⟩

/-- C1 counterexample: closing a document removes its diagnostic entry,
but a pending analysis task that later completes with a nonempty line set
recreates the diagnostic entry for the closed document (the doLint tail
publishes with no liveness check), refuting the claim that the completion
resolves into a no-op. Parser stands in as the supplied collaborator
mapping a line list to the singleton holding its length. -/
theorem c1_close_counterexample :
    alGet (closeDocV1
        (DocState.mk [("file:///a.sql", 0)] [("file:///a.sql", [3])])
        "file:///a.sql").diagnostics "file:///a.sql" = none
    ∧ alGet (doLintCompleteV1 (fun ls => [ls.length])
        (closeDocV1
          (DocState.mk [("file:///a.sql", 0)] [("file:///a.sql", [3])])
          "file:///a.sql")
        "file:///a.sql" (RunResult.mk true ["L001"])).diagnostics
        "file:///a.sql" ≠ none := by
  refine ⟨by decide, ?_⟩
  intro h
  exact absurd h (by decide)

/-- C1 (amended): the document-close handler removes both the delayer
entry and the diagnostic entry; a later completion of a queued or
in-flight task recreates the diagnostic entry exactly when its result
carries at least one output line (empty results leave the entry
removed). -/
theorem c1_close_handler {α : Type} [DecidableEq α]
    (process : List String → List α) (st : DocState α) (uri : String)
    (result : RunResult) :
    alGet (closeDocV1 st uri).delayers uri = none
    ∧ alGet (closeDocV1 st uri).diagnostics uri = none
    ∧ (result.lines = [] →
        alGet (doLintCompleteV1 process (closeDocV1 st uri) uri
          result).diagnostics uri = none)
    ∧ (result.lines ≠ [] →
        alGet (doLintCompleteV1 process (closeDocV1 st uri) uri
          result).diagnostics uri = some (process result.lines)) := by
  obtain ⟨succeeded, lines⟩ := result
  refine ⟨alGet_alErase_self _ _, alGet_alErase_self _ _, ?_, ?_⟩
  · intro h
    subst h
    simpa [doLintCompleteV1, doLintTailV1] using
      alGet_alErase_self st.diagnostics uri
  · intro h
    have hne : lines.isEmpty = false := by
      cases lines with
      | nil => exact absurd rfl h
      | cons a l => rfl
    simp [doLintCompleteV1, doLintTailV1, hne, alGet_alSet_self]

/-- C1 witness: concrete run of the amended theorem on both result
shapes. -/
theorem c1_close_handler_witness :
    alGet (closeDocV1
        (DocState.mk [("file:///a.sql", 0)] [("file:///a.sql", [3])])
        "file:///a.sql").delayers "file:///a.sql" = none
    ∧ alGet (doLintCompleteV1 (fun ls => [ls.length])
        (closeDocV1
          (DocState.mk [("file:///a.sql", 0)] [("file:///a.sql", [3])])
          "file:///a.sql")
        "file:///a.sql" (RunResult.mk true ["L001"])).diagnostics
        "file:///a.sql" = some [1] :=
  ⟨(c1_close_handler (fun ls => [ls.length])
      (DocState.mk [("file:///a.sql", 0)] [("file:///a.sql", [3])])
      "file:///a.sql" (RunResult.mk true ["L001"])).1,
    (c1_close_handler (fun ls => [ls.length])
      (DocState.mk [("file:///a.sql", 0)] [("file:///a.sql", [3])])
      "file:///a.sql" (RunResult.mk true ["L001"])).2.2.2 (by decide)⟩

/-- C2 counterexample: a spawn error whose kind is not ENOENT, arriving
while the executable-missing flag is unset, still sets the flag — refuting
the claim that the flag is set if and only if the failure kind is
executable-not-found and that other spawn errors leave it unset. -/
theorem c2_spawn_error_counterexample :
    (onSpawnErrorV2 (ErrHandlerState.mk false []) "a.sql" "sqlfluff"
      (SpawnError.mk SpawnErrorKind.otherError "boom")).executableNotFound
      = true := by decide

/-- C2 (amended): the variant 2 spawn-error handler, on any error kind
observed while the flag is unset, sets the executable-missing flag and
shows exactly one message (not-found text for ENOENT, otherwise the error
message or the unknown-reason fallback); while the flag is set, any
further spawn error leaves the state unchanged (silent resolve). -/
theorem c2_spawn_error_handler (st : ErrHandlerState)
    (fileName executable : String) (e : SpawnError) :
    (st.executableNotFound = false →
      (onSpawnErrorV2 st fileName executable e).executableNotFound = true
      ∧ (onSpawnErrorV2 st fileName executable e).shownMessages =
          st.shownMessages ++
            [if e.kind = SpawnErrorKind.enoent then notFoundMessage fileName
             else if e.message != "" then e.message
             else unknownReasonMessage executable])
    ∧ (st.executableNotFound = true →
        onSpawnErrorV2 st fileName executable e = st) := by
  constructor
  · intro h
    constructor
    · simp [onSpawnErrorV2, h]
    · simp [onSpawnErrorV2, h]
  · intro h
    simp [onSpawnErrorV2, h]

/-- C2 witness: concrete runs of the amended theorem with the flag unset
and with the flag set. -/
theorem c2_spawn_error_handler_witness :
    ((onSpawnErrorV2 (ErrHandlerState.mk false []) "a.sql" "sqlfluff"
        (SpawnError.mk SpawnErrorKind.enoent "")).executableNotFound = true
      ∧ (onSpawnErrorV2 (ErrHandlerState.mk false []) "a.sql" "sqlfluff"
          (SpawnError.mk SpawnErrorKind.enoent "")).shownMessages =
          [] ++ [if SpawnErrorKind.enoent = SpawnErrorKind.enoent then
              notFoundMessage "a.sql"
            else if "" != "" then ""
            else unknownReasonMessage "sqlfluff"])
    ∧ onSpawnErrorV2 (ErrHandlerState.mk true ["m"]) "a.sql" "sqlfluff"
        (SpawnError.mk SpawnErrorKind.enoent "") =
        ErrHandlerState.mk true ["m"] :=
  ⟨(c2_spawn_error_handler (ErrHandlerState.mk false []) "a.sql" "sqlfluff"
      (SpawnError.mk SpawnErrorKind.enoent "")).1 rfl,
    (c2_spawn_error_handler (ErrHandlerState.mk true ["m"]) "a.sql"
      "sqlfluff" (SpawnError.mk SpawnErrorKind.enoent "")).2 rfl⟩

/-- C6 counterexample: in variant 2 the end-of-stream handler publishes
unconditionally, so an analysis producing no output replaces a previously
stored nonempty diagnostic set with the empty set — refuting the claim
that on empty output the stored set is left unchanged. -/
theorem c6_failed_run_counterexample :
    alGet (onEndEventV2 (fun ls => [ls.length])
        [("file:///a.sql", [5])] "file:///a.sql" [])
      "file:///a.sql" = some ([] : List Nat)
    ∧ some ([] : List Nat) ≠ some [5] := by
  refine ⟨by decide, by decide⟩

/-- C6 (amended): in variant 1, a failure line is logged exactly when the
result is non-succeeded, and the stored diagnostic collection is left
completely unchanged exactly when the result carries no output lines (so
a failed run with empty output keeps the previous diagnostics); when
output lines are present — succeeded or not — the entry is replaced with
the parsed lines. In variant 2 (counterexample) empty output instead
clears the entry. -/
theorem c6_failed_run {α : Type} (process : List String → List α)
    (diagnostics : List (String × List α)) (uri : String)
    (result : RunResult) :
    (doLintTailV1 process diagnostics uri result).2 = !result.succeeded
    ∧ (result.lines = [] →
        (doLintTailV1 process diagnostics uri result).1 = diagnostics)
    ∧ (result.lines ≠ [] →
        alGet (doLintTailV1 process diagnostics uri result).1 uri =
          some (process result.lines)) := by
  obtain ⟨succeeded, lines⟩ := result
  refine ⟨?_, ?_, ?_⟩
  · cases lines with
    | nil => rfl
    | cons a l => rfl
  · intro h
    subst h
    rfl
  · intro h
    have hne : lines.isEmpty = false := by
      cases lines with
      | nil => exact absurd rfl h
      | cons a l => rfl
    simp [doLintTailV1, hne, alGet_alSet_self]

/-- C6 witness: a failed run with empty output logs and leaves a stored
entry untouched. -/
theorem c6_failed_run_witness :
    (doLintTailV1 (fun ls => [ls.length]) [("file:///a.sql", [5])]
      "file:///a.sql" (RunResult.mk false [])).2 = !false
    ∧ (doLintTailV1 (fun ls => [ls.length]) [("file:///a.sql", [5])]
        "file:///a.sql" (RunResult.mk false [])).1 =
        [("file:///a.sql", [5])] :=
  ⟨(c6_failed_run (fun ls => [ls.length]) [("file:///a.sql", [5])]
      "file:///a.sql" (RunResult.mk false [])).1,
    (c6_failed_run (fun ls => [ls.length]) [("file:///a.sql", [5])]
      "file:///a.sql" (RunResult.mk false [])).2.1 rfl⟩

/-- Preservation of the pipeline invariant under variant 1 semantics,
where the doLint promise resolves only when the output stream ends. -/
theorem pipelineInv_step (st : PipelineState) (e : PipelineEv)
    (h : pipelineInv st) : pipelineInv (pipelineStep false st e) := by
  obtain ⟨ds, outs, nid, lp⟩ := st
  obtain ⟨hlen, hdisj⟩ := h
  cases e with
  | trigger =>
    cases ds with
    | idle =>
      have hout : outs = [] := by
        rcases hdisj with h0 | ⟨b, hb⟩
        · exact h0
        · cases hb
      exact ⟨hlen, Or.inl hout⟩
    | waiting => exact ⟨hlen, hdisj⟩
    | running b => exact ⟨hlen, Or.inr ⟨true, rfl⟩⟩
  | fire =>
    cases ds with
    | idle => exact ⟨hlen, hdisj⟩
    | running b => exact ⟨hlen, hdisj⟩
    | waiting =>
      have hout : outs = [] := by
        rcases hdisj with h0 | ⟨b, hb⟩
        · exact h0
        · cases hb
      subst hout
      exact ⟨by simp [pipelineStep], Or.inr ⟨false, rfl⟩⟩
  | streamEnd i =>
    cases hc : outs.contains i with
    | false =>
      simp only [pipelineStep, hc]
      exact ⟨hlen, hdisj⟩
    | true =>
      have hmem : i ∈ outs := by simpa using hc
      obtain ⟨b, hb⟩ : ∃ b, ds = DState.running b := by
        rcases hdisj with h0 | hr
        · subst h0; cases hmem
        · exact hr
      subst hb
      have houts : outs = [i] := by
        cases outs with
        | nil => cases hmem
        | cons a l =>
          cases l with
          | nil =>
            have hia := List.mem_singleton.mp hmem
            subst hia
            rfl
          | cons a2 l2 =>
            exfalso
            simp only [List.length_cons] at hlen
            omega
      subst houts
      cases b with
      | true =>
        simp [pipelineStep, pipelineInv, hc]
      | false =>
        simp [pipelineStep, pipelineInv, hc]

/-- Invariant holds along any event fold under variant 1 semantics. -/
theorem pipelineInv_run (evs : List PipelineEv) (st : PipelineState)
    (h : pipelineInv st) :
    pipelineInv (evs.foldl (pipelineStep false) st) := by
  induction evs generalizing st with
  | nil => exact h
  | cons e evs ih => exact ih _ (pipelineInv_step st e h)

/-- C3 counterexample: under variant 2 semantics (doLint resolves its
promise as soon as the spawn succeeds, lint.ts line 339) two triggers with
their delayer firings put two analyses of the same document outstanding at
once, and when the first-spawned analysis ends last, its stale result is
the one published last, overwriting the newer one — refuting the claim
that at most one analysis per document is outstanding and that a stale
analysis never overwrites a later-triggered one. -/
theorem c3_serialization_counterexample :
    (pipelineRun true
      [PipelineEv.trigger, PipelineEv.fire, PipelineEv.trigger,
        PipelineEv.fire]).outstanding.length = 2
    ∧ (pipelineRun true
        [PipelineEv.trigger, PipelineEv.fire, PipelineEv.trigger,
          PipelineEv.fire, PipelineEv.streamEnd 1,
          PipelineEv.streamEnd 0]).lastPublished = some 0 := by
  refine ⟨by decide, by decide⟩

/-- C3 (amended): under variant 1 semantics, where the doLint promise
resolves only when the analysis completes, the delayer discipline keeps at
most one analysis of a document outstanding at any time along every event
sequence; under variant 2 semantics the early resolve after spawn breaks
this (see the counterexample). The throttled delayer itself is modelled
from the spec (4.2), its source not being under src/. -/
theorem c3_serialization (evs : List PipelineEv) :
    (pipelineRun false evs).outstanding.length ≤ 1 :=
  (pipelineInv_run evs pipelineInit ⟨by simp [pipelineInit], Or.inl rfl⟩).1

/-- C5: once the executable-missing flag of the variant 2 provider is set,
an operation clears it exactly when it is a configuration load whose
executable path differs from the previously configured one; whenever the
flag remains set, triggerLint schedules nothing. -/
theorem c5_flag_clearing (st : V2FlagState) (op : V2Op)
    (h : st.executableNotFound = true) :
    ((stepV2Flag st op).executableNotFound = false ↔
      ∃ e, op = V2Op.loadConfig e ∧ st.executable ≠ e)
    ∧ (∀ ids lang mode, (stepV2Flag st op).executableNotFound = true →
        triggerSchedulesV2 ids lang
          ((stepV2Flag st op).executableNotFound) mode = false) := by
  constructor
  · cases op with
    | loadConfig newExec =>
      have hred :
          (stepV2Flag st (V2Op.loadConfig newExec)).executableNotFound
            = (st.executable == newExec) := by
        simp [stepV2Flag, h]
      rw [hred]
      constructor
      · intro hf
        refine ⟨newExec, rfl, ?_⟩
        simpa using hf
      · rintro ⟨e, he, hne⟩
        injection he with he2
        subst he2
        simpa using hne
    | spawnError e =>
      have hred :
          (stepV2Flag st (V2Op.spawnError e)).executableNotFound = true := by
        simp [stepV2Flag, h]
      rw [hred]
      constructor
      · intro hf; exact absurd hf (by simp)
      · rintro ⟨e2, he, _⟩; cases he
    | triggerDoc u =>
      have hred :
          (stepV2Flag st (V2Op.triggerDoc u)).executableNotFound = true := h
      rw [hred]
      constructor
      · intro hf; exact absurd hf (by simp)
      · rintro ⟨e2, he, _⟩; cases he
    | closeDoc u =>
      have hred :
          (stepV2Flag st (V2Op.closeDoc u)).executableNotFound = true := h
      rw [hred]
      constructor
      · intro hf; exact absurd hf (by simp)
      · rintro ⟨e2, he, _⟩; cases he
  · intro ids lang mode h2
    rw [h2]
    simp [triggerSchedulesV2]

/-- C5 witness: a configuration load with an unchanged executable path
leaves the flag set and scheduling suppressed. -/
theorem c5_flag_clearing_witness :
    (stepV2Flag (V2FlagState.mk true "sqlfluff")
        (V2Op.loadConfig "sqlfluff")).executableNotFound = true
    ∧ triggerSchedulesV2 ["sql"] "sql"
        ((stepV2Flag (V2FlagState.mk true "sqlfluff")
          (V2Op.loadConfig "sqlfluff")).executableNotFound)
        RunTrigger.onType = false := by
  have h := c5_flag_clearing (V2FlagState.mk true "sqlfluff")
    (V2Op.loadConfig "sqlfluff") rfl
  have hflag : (stepV2Flag (V2FlagState.mk true "sqlfluff")
      (V2Op.loadConfig "sqlfluff")).executableNotFound = true := by
    cases hf : (stepV2Flag (V2FlagState.mk true "sqlfluff")
        (V2Op.loadConfig "sqlfluff")).executableNotFound with
    | true => rfl
    | false =>
      obtain ⟨e, he, hne⟩ := h.1.mp hf
      injection he with he2
      exact absurd he2 hne
  exact ⟨hflag, h.2 ["sql"] "sql" RunTrigger.onType hflag⟩

/-- C8: evaluation at the failing input. After loadConfiguration runs with
mode onType and then again with mode onSave, the delayer table is empty
and a save listener is active as claimed, but the change listener
registered by the first call is still active although the current mode is
onSave — its disposable was overwritten in the documentListener field by
the save-listener registration before the second call could dispose it,
contradicting the claim that a change listener is active only when mode is
onType and that earlier listeners are unregistered. -/
theorem c8_listener_leak :
    ((loadConfigurationListenersV1
        (loadConfigurationListenersV1 listenerInit RunTrigger.onType)
        RunTrigger.onSave).mode = RunTrigger.onSave)
    ∧ ((0, LKind.changeListener) ∈
        (loadConfigurationListenersV1
          (loadConfigurationListenersV1 listenerInit RunTrigger.onType)
          RunTrigger.onSave).active)
    ∧ ((loadConfigurationListenersV1
        (loadConfigurationListenersV1 listenerInit RunTrigger.onType)
        RunTrigger.onSave).delayers = [])
    ∧ ((2, LKind.saveListener) ∈
        (loadConfigurationListenersV1
          (loadConfigurationListenersV1 listenerInit RunTrigger.onType)
          RunTrigger.onSave).active) := by
  decide

/-- C9 counterexample: with an absent or empty workspace-folder list,
variant 1 doLint throws on the dereference of the first workspace folder
(lint.ts line 114), so its promise rejects instead of resolving — refuting
the claim that every doLint invocation resolves and never rejects. -/
theorem c9_dolint_counterexample :
    doLintV1 (fun ls => ([ls.length] : List Nat)) ([] : List String)
      RunTrigger.onSave true "a.sql" "select 1" (RunResult.mk true [])
      [] "file:///a.sql"
    = Except.error "TypeError: cannot read properties of undefined" := rfl

/-- C9 (amended): for every invocation with a nonempty workspace-folder
list, variant 1 doLint resolves: spawn errors and tool failures arrive as
a RunResult from the runner (modelled from the spec 4.3 contract, the
runner source not being under src/) and are absorbed by the result
handling, so no exception propagates to the delayer; with an absent or
empty folder list the promise rejects (see the counterexample). -/
theorem c9_dolint_resolves {α : Type} (process : List String → List α)
    (folders : List String) (h : folders ≠ []) (mode : RunTrigger)
    (currentDocument : Bool) (filePath text : String) (result : RunResult)
    (diagnostics : List (String × List α)) (uri : String) :
    ∃ v, doLintV1 process folders mode currentDocument filePath text
      result diagnostics uri = Except.ok v := by
  cases folders with
  | nil => exact absurd rfl h
  | cons f fs => exact ⟨_, rfl⟩

/-- C9 witness: a concrete invocation with one workspace folder
resolves. -/
theorem c9_dolint_resolves_witness :
    ∃ v, doLintV1 (fun ls => ([ls.length] : List Nat)) ["/root"]
      RunTrigger.onSave true "a.sql" "select 1" (RunResult.mk true [])
      [] "file:///a.sql" = Except.ok v :=
  c9_dolint_resolves (fun ls => [ls.length]) ["/root"] (by decide)
    RunTrigger.onSave true "a.sql" "select 1" (RunResult.mk true []) []
    "file:///a.sql"

end VscodeSqlfluff
